import Mathlib

/-!
# Verification of the weather-forecasting app's data layer

Shallow embedding of `src/weather_forecast_app.py`: the `WeatherData.fetch_weather`
routine and the `DatabaseManager` SQLite store, together with proofs of the
specified properties.

Modelling choices:
* JSON values (`JVal`) carry numbers as rationals: every numeric literal the code
  touches is passed through unchanged, never computed with, so exact rationals are a
  faithful stand-in for Python's int/float values here.
* Python exceptions are explicit: `PyResult` is the outcome of a Python expression,
  either a value or a raised exception.  The `try/except` in `fetch_weather`
  catches exactly `requests.RequestException` and `KeyError`, as the source does.
* The network is an oracle (`Transport`): either the GET/`raise_for_status`/`json()`
  pipeline raises a `RequestException` with some message, or it yields a parsed body.
* `datetime.now()` is a parameter (`DateTime`); `strftime "%Y-%m-%d %H:%M:%S"` is
  modelled digit-by-digit, faithful on the ranges `datetime` guarantees
  (year ≤ 9999, month/day/hour/minute/second < 100).
-/

/-- A parsed JSON value, as produced by `response.json()`. -/
inductive JVal where
  | jnull
  | jbool (b : Bool)
  | jnum (q : ℚ)
  | jstr (s : String)
  | jarr (xs : List JVal)
  | jobj (fields : List (String × JVal))

/-- The Python exceptions that can arise in `fetch_weather`.  A `keyError` carries
`str(e)`, which for a missing string dict key is the key wrapped in single quotes
(Python renders `str(KeyError('name'))` via `repr`). -/
inductive PyExn where
  | keyError (srepr : String)
  | indexError
  | typeError
  | attributeError
  | requestException (msg : String)
deriving DecidableEq, Repr

/-- Outcome of running a piece of Python code: a value, or a raised exception. -/
inductive PyResult (α : Type) where
  | ok (v : α)
  | exn (e : PyExn)

def PyResult.bind {α β : Type} : PyResult α → (α → PyResult β) → PyResult β
  | .ok v, f => f v
  | .exn e, _ => .exn e

instance : Monad PyResult where
  pure := PyResult.ok
  bind := PyResult.bind

/-- The single-quote character, used to model Python's `repr` of a string. -/
def squote : Char := Char.ofNat 39

/-- Python `repr` of a simple string (as rendered inside `str(KeyError(k))`). -/
def pyRepr (k : String) : String := String.singleton squote ++ k ++ String.singleton squote

/-- First-match association lookup, modelling lookup in a Python dict whose keys
are unique (as `json` parsing produces). -/
def alookup : List (String × JVal) → String → Option JVal
  | [], _ => none
  | (k, v) :: rest, key => if k = key then some v else alookup rest key

/-- Python `d.get(k)` (one-argument form, default `None`): `None` when the key is
missing; raises `AttributeError` when the receiver is not a dict. -/
def JVal.getOpt : JVal → String → PyResult (Option JVal)
  | .jobj fs, k => .ok (alookup fs k)
  | _, _ => .exn .attributeError

/-- Python `d.get(k, default)`: the default when the key is missing; raises
`AttributeError` when the receiver is not a dict. -/
def JVal.getD : JVal → String → JVal → PyResult JVal
  | .jobj fs, k, dflt => .ok ((alookup fs k).getD dflt)
  | _, _, _ => .exn .attributeError

/-- Python subscripting `x[k]` with a string key: `KeyError` (whose `str` is the
quoted key) on a dict missing the key, `TypeError` on every non-dict receiver. -/
def jsub : JVal → String → PyResult JVal
  | .jobj fs, k =>
      match alookup fs k with
      | some v => .ok v
      | none => .exn (.keyError (pyRepr k))
  | _, _ => .exn .typeError

/-- Python subscripting `x[i]` with an int index: list indexing with `IndexError`
out of range; on a dict (JSON objects have only string keys) a `KeyError` whose
`str` is the index; on a string, one-character slice; `TypeError` otherwise. -/
def jidx : JVal → Nat → PyResult JVal
  | .jarr xs, i =>
      match xs.get? i with
      | some v => .ok v
      | none => .exn .indexError
  | .jobj _, i => .exn (.keyError (toString i))
  | .jstr s, i =>
      match s.data.get? i with
      | some c => .ok (.jstr (String.singleton c))
      | none => .exn .indexError
  | _, _ => .exn .typeError

/-- Python equality test `data.get("cod") == 200`: true exactly when the value is
the number 200 (ints and floats compare numerically; strings and `None` never
equal an int).  The source's condition is the negation of this. -/
def isCod200 : Option JVal → Bool
  | some (.jnum q) => q == 200
  | _ => false

/-- Python truthiness of an optional string argument (`if city:`):
`None` and the empty string are falsy. -/
def truthyStr : Option String → Bool
  | none => false
  | some s => s != ""

/-- Python truthiness of an optional numeric argument (`lat and lon`):
`None` and `0` / `0.0` are falsy. -/
def truthyNum : Option ℚ → Bool
  | none => false
  | some q => q != 0

/-- A local wall-clock time, the value of `datetime.now()`. -/
structure DateTime where
  year : Nat
  month : Nat
  day : Nat
  hour : Nat
  minute : Nat
  second : Nat

/-- The decimal digit character of `n % 10`. -/
def dchar (n : Nat) : Char := Char.ofNat (48 + n % 10)

/-- `datetime.strftime("%Y-%m-%d %H:%M:%S")`, rendered digit by digit.  Faithful
whenever the fields are in the ranges `datetime` guarantees (year ≤ 9999, the
rest two-digit). -/
def strftimeYmdHMS (t : DateTime) : String :=
  String.mk [dchar (t.year / 1000), dchar (t.year / 100), dchar (t.year / 10), dchar t.year,
    Char.ofNat 45, dchar (t.month / 10), dchar t.month,
    Char.ofNat 45, dchar (t.day / 10), dchar t.day,
    Char.ofNat 32, dchar (t.hour / 10), dchar t.hour,
    Char.ofNat 58, dchar (t.minute / 10), dchar t.minute,
    Char.ofNat 58, dchar (t.second / 10), dchar t.second]

/-- The dict `fetch_weather` returns on success: raw JSON values passed through,
plus the locally stamped timestamp string. -/
structure Obs where
  city : JVal
  temp : JVal
  humidity : JVal
  wind_speed : JVal
  description : JVal
  lat : JVal
  lon : JVal
  timestamp : String

/-- Outcome of the network pipeline `requests.get(url)`, `raise_for_status()`,
`response.json()`: either a `RequestException` with a message, or a parsed body. -/
inductive Transport where
  | raises (msg : String)
  | body (data : JVal)

/-- The dict-literal construction at the end of `fetch_weather`, with Python's
left-to-right evaluation of the subscript chains. -/
def extractObs (data : JVal) (now : DateTime) : PyResult Obs := do
  let city ← jsub data "name"
  let temp ← do let m ← jsub data "main"; jsub m "temp"
  let humidity ← do let m ← jsub data "main"; jsub m "humidity"
  let wind_speed ← do let w ← jsub data "wind"; jsub w "speed"
  let description ← do
    let wl ← jsub data "weather"
    let w0 ← jidx wl 0
    jsub w0 "description"
  let lat ← do let c ← jsub data "coord"; jsub c "lat"
  let lon ← do let c ← jsub data "coord"; jsub c "lon"
  pure { city, temp, humidity, wind_speed, description, lat, lon,
         timestamp := strftimeYmdHMS now }

/-- The body of the `try:` block of `WeatherData.fetch_weather`.  The transport
oracle is consulted only on the two branches that build a URL; the `else` branch
returns the usage error without any network activity. -/
def fetchTry (city : Option String) (lat lon : Option ℚ) (tr : Transport)
    (now : DateTime) : PyResult (Option Obs × Option JVal) :=
  if truthyStr city || (truthyNum lat && truthyNum lon) then
    match tr with
    | .raises msg => .exn (.requestException msg)
    | .body data => do
        let codv ← JVal.getOpt data "cod"
        if isCod200 codv then do
          let obs ← extractObs data now
          pure (some obs, none)
        else do
          let msgv ← JVal.getD data "message" (.jstr "Error fetching weather data.")
          pure (none, some msgv)
  else
    .ok (none, some (.jstr "Please provide a city name or coordinates."))

/-- `WeatherData.fetch_weather`: the `try:` body wrapped by the two `except`
clauses of the source, which convert `requests.RequestException` and `KeyError`
into `(None, message)` returns.  Every other exception propagates. -/
def fetch_weather (city : Option String) (lat lon : Option ℚ) (tr : Transport)
    (now : DateTime) : PyResult (Option Obs × Option JVal) :=
  match fetchTry city lat lon tr now with
  | .exn (.requestException m) =>
      .ok (none, some (.jstr ("Network error: " ++ m)))
  | .exn (.keyError s) =>
      .ok (none, some (.jstr ("Data parsing error: Missing key " ++ s)))
  | r => r

/-- One row of the `weather_history` table, typed by the Observation schema the
app stores (`city` TEXT, `temp` REAL, `humidity` INTEGER, `wind_speed` REAL,
`description` TEXT, `timestamp` TEXT). -/
structure HistRow where
  city : String
  temp : ℚ
  humidity : ℚ
  wind_speed : ℚ
  description : String
  timestamp : String
deriving DecidableEq

/-- The two tables `DatabaseManager.create_tables` creates, each as a list in
rowid (= insertion) order; `favorites.city` is `NOT NULL UNIQUE`, so present
rows always carry a real city string. -/
structure DBState where
  favorites : List (String × ℚ × ℚ)
  history : List HistRow
deriving DecidableEq

/-- `DatabaseManager.add_favorite`: `INSERT INTO favorites` then commit;
`sqlite3.IntegrityError` — raised both by a duplicate `city` (UNIQUE) and by a
`None` city (NOT NULL) — is caught and reported as `(False, "City already in
favorites.")`, leaving the table untouched. -/
def add_favorite (db : DBState) (city : Option String) (lat lon : ℚ) :
    DBState × (Bool × String) :=
  match city with
  | none => (db, (false, "City already in favorites."))
  | some c =>
      if db.favorites.any (fun r => r.1 = c) then
        (db, (false, "City already in favorites."))
      else
        ({ db with favorites := db.favorites ++ [(c, lat, lon)] },
         (true, "City added to favorites."))

/-- `DatabaseManager.remove_favorite`: `DELETE FROM favorites WHERE city = ?`,
then success iff `cursor.rowcount > 0`, i.e. iff some row matched exactly. -/
def remove_favorite (db : DBState) (city : String) :
    DBState × (Bool × String) :=
  let hit := db.favorites.any (fun r => r.1 = city)
  ({ db with favorites := db.favorites.filter (fun r => r.1 ≠ city) },
   (hit, if hit then "City removed." else "City not found."))

/-- `DatabaseManager.get_favorites`: `SELECT city, lat, lon FROM favorites`,
rows in insertion order. -/
def get_favorites (db : DBState) : List (String × ℚ × ℚ) :=
  db.favorites

/-- `DatabaseManager.save_weather_history`: `INSERT INTO weather_history`
of the six fields, then commit — a pure append. -/
def save_weather_history (db : DBState) (w : HistRow) : DBState :=
  { db with history := db.history ++ [w] }

/-- `DatabaseManager.get_weather_history`: `SELECT temp, humidity, wind_speed,
description, timestamp FROM weather_history WHERE city = ?`, in insertion
order. -/
def get_weather_history (db : DBState) (city : String) :
    List (ℚ × ℚ × ℚ × String × String) :=
  (db.history.filter (fun r => r.city = city)).map
    (fun r => (r.temp, r.humidity, r.wind_speed, r.description, r.timestamp))

/-! ## Helper lemmas -/

@[simp] theorem pyResult_bind_ok {α β : Type} (v : α) (f : α → PyResult β) :
    (PyResult.ok v >>= f) = f v := rfl

@[simp] theorem pyResult_bind_exn {α β : Type} (e : PyExn) (f : α → PyResult β) :
    ((PyResult.exn e : PyResult α) >>= f) = PyResult.exn e := rfl

@[simp] theorem pyResult_pure {α : Type} (v : α) :
    (pure v : PyResult α) = PyResult.ok v := rfl

/-- A decimal-digit character (code points 48–57). -/
def isDigitCh (c : Char) : Bool := 48 ≤ c.toNat && c.toNat ≤ 57

/-- The shape `YYYY-MM-DD HH:MM:SS`: `D` marks a digit position, every other
pattern character must occur verbatim. -/
def matchShape : List Char → List Char → Bool
  | [], [] => true
  | p :: ps, c :: cs =>
      (if p = Char.ofNat 68 then isDigitCh c else p = c) && matchShape ps cs
  | _, _ => false

/-- The 19-character timestamp pattern `DDDD-DD-DD DD:DD:DD`. -/
def tsPattern : List Char :=
  [Char.ofNat 68, Char.ofNat 68, Char.ofNat 68, Char.ofNat 68, Char.ofNat 45,
   Char.ofNat 68, Char.ofNat 68, Char.ofNat 45, Char.ofNat 68, Char.ofNat 68,
   Char.ofNat 32, Char.ofNat 68, Char.ofNat 68, Char.ofNat 58,
   Char.ofNat 68, Char.ofNat 68, Char.ofNat 58, Char.ofNat 68, Char.ofNat 68]

/-- A string is a well-formed `YYYY-MM-DD HH:MM:SS` timestamp. -/
def isTimestampFormat (s : String) : Bool := matchShape tsPattern s.data

theorem isDigitCh_dchar (n : Nat) : isDigitCh (dchar n) = true := by
  have h : n % 10 = 0 ∨ n % 10 = 1 ∨ n % 10 = 2 ∨ n % 10 = 3 ∨ n % 10 = 4 ∨
      n % 10 = 5 ∨ n % 10 = 6 ∨ n % 10 = 7 ∨ n % 10 = 8 ∨ n % 10 = 9 := by omega
  unfold dchar
  rcases h with h | h | h | h | h | h | h | h | h | h <;> rw [h] <;> decide

/-- Whatever the clock reads, the stamped string has the `YYYY-MM-DD HH:MM:SS`
shape. -/
theorem strftime_wellformed (t : DateTime) :
    isTimestampFormat (strftimeYmdHMS t) = true := by
  simp [isTimestampFormat, strftimeYmdHMS, tsPattern, matchShape,
    isDigitCh_dchar]

/-! ## Concrete sample data (mirroring the repository's unit tests) -/

/-- The successful response body of `test_fetch_weather_success`. -/
def sampleBody : JVal :=
  .jobj [("cod", .jnum 200), ("name", .jstr "Lahore"),
    ("main", .jobj [("temp", .jnum 30), ("humidity", .jnum 50)]),
    ("wind", .jobj [("speed", .jnum 2)]),
    ("weather", .jarr [.jobj [("description", .jstr "clear sky")]]),
    ("coord", .jobj [("lat", .jnum (63 / 2)), ("lon", .jnum (743 / 10))])]

/-- A fixed clock reading, `2025-06-13 12:00:00`. -/
def sampleNow : DateTime := ⟨2025, 6, 13, 12, 0, 0⟩

/-! ## C1 -/

/-- C1: a provider response parsing with `cod = 200` and all expected fields
present makes `fetch_weather` return an Observation (with a `None` error) whose
`city`, `temp`, `humidity`, `wind_speed`, `description`, `lat`, `lon` are exactly
the response's fields, and whose timestamp is a well-formed
`YYYY-MM-DD HH:MM:SS` string. -/
theorem fetch_success_exact_fields
    (city : Option String) (lat lon : Option ℚ) (now : DateTime)
    (fs ms ws ds cs : List (String × JVal)) (wrest : List JVal)
    (n t h w d la lo : JVal)
    (hgate : (truthyStr city || (truthyNum lat && truthyNum lon)) = true)
    (hcod : alookup fs "cod" = some (.jnum 200))
    (hname : alookup fs "name" = some n)
    (hmain : alookup fs "main" = some (.jobj ms))
    (htemp : alookup ms "temp" = some t)
    (hhum : alookup ms "humidity" = some h)
    (hwind : alookup fs "wind" = some (.jobj ws))
    (hspeed : alookup ws "speed" = some w)
    (hweather : alookup fs "weather" = some (.jarr (.jobj ds :: wrest)))
    (hdesc : alookup ds "description" = some d)
    (hcoord : alookup fs "coord" = some (.jobj cs))
    (hlat : alookup cs "lat" = some la)
    (hlon : alookup cs "lon" = some lo) :
    fetch_weather city lat lon (.body (.jobj fs)) now =
      .ok (some ⟨n, t, h, w, d, la, lo, strftimeYmdHMS now⟩, none) ∧
    isTimestampFormat (strftimeYmdHMS now) = true := by
  refine ⟨?_, strftime_wellformed now⟩
  rw [fetch_weather, fetchTry, hgate]
  simp only [if_pos rfl, Bool.or_eq_true] at *
  simp [JVal.getOpt, hcod, isCod200, extractObs, jsub, jidx, hname, hmain,
    htemp, hhum, hwind, hspeed, hweather, hdesc, hcoord, hlat, hlon]

/-- C1 at the unit test's concrete response and a fixed clock. -/
theorem fetch_success_exact_fields_witness :
    fetch_weather (some "Lahore") none none (.body sampleBody) sampleNow =
      .ok (some ⟨.jstr "Lahore", .jnum 30, .jnum 50, .jnum 2,
        .jstr "clear sky", .jnum (63 / 2), .jnum (743 / 10),
        strftimeYmdHMS sampleNow⟩, none) ∧
    isTimestampFormat (strftimeYmdHMS sampleNow) = true :=
  fetch_success_exact_fields (some "Lahore") none none sampleNow
    _ _ _ _ _ _ _ _ _ _ _ _ _
    (by decide) rfl rfl rfl rfl rfl rfl rfl rfl rfl rfl rfl rfl

/-! ## C2 -/

/-- A response body identical to the unit test's success body except that the
`weather` field is an empty list. -/
def emptyWeatherBody : JVal :=
  .jobj [("cod", .jnum 200), ("name", .jstr "Lahore"),
    ("main", .jobj [("temp", .jnum 30), ("humidity", .jnum 50)]),
    ("wind", .jobj [("speed", .jnum 2)]),
    ("weather", .jarr []),
    ("coord", .jobj [("lat", .jnum (63 / 2)), ("lon", .jnum (743 / 10))])]

/-- The exception classes the two `except` clauses of `fetch_weather` convert
into `(None, message)` returns. -/
def caughtByHandlers : PyResult (Option Obs × Option JVal) → Bool
  | .exn (.keyError _) => true
  | .exn (.requestException _) => true
  | _ => false

/-- C2 counterexample: on a body whose `weather` field is an empty list (with
`cod = 200` and everything else present), `fetch_weather` raises an uncaught
`IndexError` instead of returning a `(None, error-message)` pair. -/
theorem fetch_raises_on_empty_weather :
    fetch_weather (some "Lahore") none none (.body emptyWeatherBody) sampleNow =
      .exn .indexError := by
  rw [fetch_weather, fetchTry]
  simp [truthyStr, emptyWeatherBody, JVal.getOpt, alookup, isCod200,
    extractObs, jsub, jidx]

/-- C2 amended: the two `except` clauses really do keep every
`requests.RequestException` and every `KeyError` from escaping — such failures
come back as `(None, message)` pairs — but other exceptions raised on a body of
unexpected shape (such as the `IndexError` above) propagate to the caller. -/
theorem fetch_never_leaks_caught_exceptions
    (city : Option String) (lat lon : Option ℚ) (tr : Transport)
    (now : DateTime) :
    caughtByHandlers (fetch_weather city lat lon tr now) = false := by
  rw [fetch_weather]
  rcases h : fetchTry city lat lon tr now with v | e
  · simp [caughtByHandlers]
  · rcases e with s | _ | _ | _ | m <;> simp [caughtByHandlers]

/-! ## C3 -/

/-- C3: with no city and no complete coordinate pair, `fetch_weather` returns
`None` plus the non-empty usage-error message, and the result does not depend
on the transport oracle — no network call is made. -/
theorem fetch_usage_error
    (lat lon : Option ℚ) (tr tr2 : Transport) (now : DateTime)
    (hl : lat = none ∨ lon = none) :
    fetch_weather none lat lon tr now =
      .ok (none, some (.jstr "Please provide a city name or coordinates.")) ∧
    fetch_weather none lat lon tr now = fetch_weather none lat lon tr2 now ∧
    "Please provide a city name or coordinates." ≠ "" := by
  have hgate : (truthyStr none || (truthyNum lat && truthyNum lon)) = false := by
    rcases hl with h | h <;> subst h <;>
      simp [truthyStr, truthyNum, Bool.and_comm]
  have hres : ∀ t : Transport, fetch_weather none lat lon t now =
      .ok (none, some (.jstr "Please provide a city name or coordinates.")) := by
    intro t
    rw [fetch_weather, fetchTry.eq_def, hgate]
    simp
  exact ⟨hres tr, (hres tr).trans (hres tr2).symm, by decide⟩

/-- C3 at a concrete call: no city, no coordinates, arbitrary transports. -/
theorem fetch_usage_error_witness :
    fetch_weather none none none (.raises "boom") sampleNow =
      .ok (none, some (.jstr "Please provide a city name or coordinates.")) ∧
    fetch_weather none none none (.raises "boom") sampleNow =
      fetch_weather none none none (.body sampleBody) sampleNow ∧
    "Please provide a city name or coordinates." ≠ "" :=
  fetch_usage_error none none (.raises "boom") (.body sampleBody) sampleNow
    (Or.inl rfl)

/-! ## C9 -/

/-- C9: a latitude of exactly 0 with a real longitude (city absent) is
misclassified by the truthiness check: `fetch_weather` returns the usage error
for every transport oracle, i.e. it never issues the coordinate query even
though `(0, 74.3)` is a valid coordinate pair. -/
theorem fetch_zero_coordinate_misclassified (tr : Transport) (now : DateTime) :
    fetch_weather none (some 0) (some (743 / 10)) tr now =
      .ok (none, some (.jstr "Please provide a city name or coordinates.")) := by
  rw [fetch_weather, fetchTry.eq_def]
  simp [truthyStr, truthyNum]

/-! ## C7 -/

/-- C7: when the body parses and carries a `cod` field that is not the number
200, `fetch_weather` returns `None` plus the body's `message` field when that
field is present, and the generic `"Error fetching weather data."` fallback
when it is absent. -/
theorem fetch_provider_error
    (city : Option String) (lat lon : Option ℚ) (now : DateTime)
    (fs : List (String × JVal)) (cv : JVal)
    (hgate : (truthyStr city || (truthyNum lat && truthyNum lon)) = true)
    (hcod : alookup fs "cod" = some cv)
    (hne : isCod200 (some cv) = false) :
    (∀ m, alookup fs "message" = some m →
        fetch_weather city lat lon (.body (.jobj fs)) now = .ok (none, some m)) ∧
    (alookup fs "message" = none →
        fetch_weather city lat lon (.body (.jobj fs)) now =
          .ok (none, some (.jstr "Error fetching weather data."))) := by
  constructor
  · intro m hm
    rw [fetch_weather, fetchTry, hgate]
    simp [JVal.getOpt, JVal.getD, hcod, hne, hm]
  · intro hm
    rw [fetch_weather, fetchTry, hgate]
    simp [JVal.getOpt, JVal.getD, hcod, hne, hm]

/-- C7 at the unit test's failure response: `cod = 404` with
`message = "city not found"` yields exactly that message as the error. -/
theorem fetch_provider_error_witness :
    fetch_weather (some "FakeCity") none none
        (.body (.jobj [("cod", .jnum 404), ("message", .jstr "city not found")]))
        sampleNow =
      .ok (none, some (.jstr "city not found")) :=
  (fetch_provider_error (some "FakeCity") none none sampleNow
      [("cod", .jnum 404), ("message", .jstr "city not found")] (.jnum 404)
      (by decide) rfl (by decide)).1 (.jstr "city not found") rfl

/-! ## C8 -/

/-- The `(None, message)` return produced by the `except KeyError` clause for a
missing field `k` (Python renders `str(KeyError('k'))` with quotes). -/
def parseErr (k : String) : PyResult (Option Obs × Option JVal) :=
  .ok (none, some (.jstr ("Data parsing error: Missing key " ++ pyRepr k)))

/-- C8: with `cod = 200`, whichever expected field is the first one missing —
in the source's access order `name`, `main`, `main.temp`, `main.humidity`,
`wind`, `wind.speed`, `weather`, `weather[0].description`, `coord`,
`coord.lat`, `coord.lon` — `fetch_weather` returns `None` together with a
data-parsing error message naming exactly that field. -/
theorem fetch_missing_field_named
    (city : Option String) (lat lon : Option ℚ) (now : DateTime)
    (fs : List (String × JVal))
    (hgate : (truthyStr city || (truthyNum lat && truthyNum lon)) = true)
    (hcod : alookup fs "cod" = some (.jnum 200)) :
    (alookup fs "name" = none →
      fetch_weather city lat lon (.body (.jobj fs)) now = parseErr "name") ∧
    (∀ n, alookup fs "name" = some n → alookup fs "main" = none →
      fetch_weather city lat lon (.body (.jobj fs)) now = parseErr "main") ∧
    (∀ n ms, alookup fs "name" = some n →
      alookup fs "main" = some (.jobj ms) → alookup ms "temp" = none →
      fetch_weather city lat lon (.body (.jobj fs)) now = parseErr "temp") ∧
    (∀ n ms t, alookup fs "name" = some n →
      alookup fs "main" = some (.jobj ms) → alookup ms "temp" = some t →
      alookup ms "humidity" = none →
      fetch_weather city lat lon (.body (.jobj fs)) now = parseErr "humidity") ∧
    (∀ n ms t h, alookup fs "name" = some n →
      alookup fs "main" = some (.jobj ms) → alookup ms "temp" = some t →
      alookup ms "humidity" = some h → alookup fs "wind" = none →
      fetch_weather city lat lon (.body (.jobj fs)) now = parseErr "wind") ∧
    (∀ n ms t h ws, alookup fs "name" = some n →
      alookup fs "main" = some (.jobj ms) → alookup ms "temp" = some t →
      alookup ms "humidity" = some h → alookup fs "wind" = some (.jobj ws) →
      alookup ws "speed" = none →
      fetch_weather city lat lon (.body (.jobj fs)) now = parseErr "speed") ∧
    (∀ n ms t h ws w, alookup fs "name" = some n →
      alookup fs "main" = some (.jobj ms) → alookup ms "temp" = some t →
      alookup ms "humidity" = some h → alookup fs "wind" = some (.jobj ws) →
      alookup ws "speed" = some w → alookup fs "weather" = none →
      fetch_weather city lat lon (.body (.jobj fs)) now = parseErr "weather") ∧
    (∀ n ms t h ws w ds wrest, alookup fs "name" = some n →
      alookup fs "main" = some (.jobj ms) → alookup ms "temp" = some t →
      alookup ms "humidity" = some h → alookup fs "wind" = some (.jobj ws) →
      alookup ws "speed" = some w →
      alookup fs "weather" = some (.jarr (.jobj ds :: wrest)) →
      alookup ds "description" = none →
      fetch_weather city lat lon (.body (.jobj fs)) now =
        parseErr "description") ∧
    (∀ n ms t h ws w ds wrest d, alookup fs "name" = some n →
      alookup fs "main" = some (.jobj ms) → alookup ms "temp" = some t →
      alookup ms "humidity" = some h → alookup fs "wind" = some (.jobj ws) →
      alookup ws "speed" = some w →
      alookup fs "weather" = some (.jarr (.jobj ds :: wrest)) →
      alookup ds "description" = some d → alookup fs "coord" = none →
      fetch_weather city lat lon (.body (.jobj fs)) now = parseErr "coord") ∧
    (∀ n ms t h ws w ds wrest d cs, alookup fs "name" = some n →
      alookup fs "main" = some (.jobj ms) → alookup ms "temp" = some t →
      alookup ms "humidity" = some h → alookup fs "wind" = some (.jobj ws) →
      alookup ws "speed" = some w →
      alookup fs "weather" = some (.jarr (.jobj ds :: wrest)) →
      alookup ds "description" = some d →
      alookup fs "coord" = some (.jobj cs) → alookup cs "lat" = none →
      fetch_weather city lat lon (.body (.jobj fs)) now = parseErr "lat") ∧
    (∀ n ms t h ws w ds wrest d cs la, alookup fs "name" = some n →
      alookup fs "main" = some (.jobj ms) → alookup ms "temp" = some t →
      alookup ms "humidity" = some h → alookup fs "wind" = some (.jobj ws) →
      alookup ws "speed" = some w →
      alookup fs "weather" = some (.jarr (.jobj ds :: wrest)) →
      alookup ds "description" = some d →
      alookup fs "coord" = some (.jobj cs) → alookup cs "lat" = some la →
      alookup cs "lon" = none →
      fetch_weather city lat lon (.body (.jobj fs)) now = parseErr "lon") := by
  refine ⟨?_, ?_, ?_, ?_, ?_, ?_, ?_, ?_, ?_, ?_, ?_⟩ <;>
    (intros; rw [fetch_weather, fetchTry, hgate];
     simp only [JVal.getOpt, isCod200, extractObs, jsub, jidx, parseErr,
       pyResult_bind_ok, pyResult_bind_exn, pyResult_pure, hcod, *];
     simp [*])

/-- C8 at a concrete body: `cod = 200` with `name` absent yields the
data-parsing error naming `name`. -/
theorem fetch_missing_field_named_witness :
    fetch_weather (some "Lahore") none none
        (.body (.jobj [("cod", .jnum 200)])) sampleNow = parseErr "name" :=
  (fetch_missing_field_named (some "Lahore") none none sampleNow
      [("cod", .jnum 200)] (by decide) rfl).1 rfl

/-! ## Database claims -/

/-- A favorites table hits on a city name exactly when some row carries it. -/
theorem any_city_iff (l : List (String × ℚ × ℚ)) (c : String) :
    l.any (fun r => r.1 = c) = true ↔ ∃ p q, (c, p, q) ∈ l := by
  simp only [List.any_eq_true, decide_eq_true_eq]
  constructor
  · rintro ⟨⟨a, p, q⟩, hmem, he⟩
    rw [show a = c from he] at hmem
    exact ⟨p, q, hmem⟩
  · rintro ⟨p, q, h⟩
    exact ⟨(c, p, q), h, rfl⟩

/-- C4: adding a favorite whose city is already present fails with
`"City already in favorites."` and leaves the whole store untouched; adding a
fresh city succeeds with the confirmation message and appends exactly the full
`(city, lat, lon)` row, which `get_favorites` then reports. -/
theorem add_favorite_contract (db : DBState) (c : String) (la lo : ℚ) :
    (∀ p q, (c, p, q) ∈ db.favorites →
      add_favorite db (some c) la lo =
        (db, (false, "City already in favorites."))) ∧
    ((∀ p q, (c, p, q) ∉ db.favorites) →
      (add_favorite db (some c) la lo).2 = (true, "City added to favorites.") ∧
      (add_favorite db (some c) la lo).1.favorites =
        db.favorites ++ [(c, la, lo)] ∧
      (c, la, lo) ∈ get_favorites (add_favorite db (some c) la lo).1) := by
  constructor
  · intro p q hmem
    have hany : db.favorites.any (fun r => r.1 = c) = true :=
      (any_city_iff db.favorites c).mpr ⟨p, q, hmem⟩
    simp [add_favorite, hany]
  · intro habs
    have hany : db.favorites.any (fun r => r.1 = c) = false := by
      rw [Bool.eq_false_iff]
      intro h
      obtain ⟨p, q, hmem⟩ := (any_city_iff db.favorites c).mp h
      exact habs p q hmem
    simp [add_favorite, hany, get_favorites]

/-- C4 on the spec's example: adding Lahore to an empty store succeeds and a
second add of the same city fails. -/
theorem add_favorite_contract_witness :
    (add_favorite ⟨[], []⟩ (some "Lahore") (63 / 2) (743 / 10)).2 =
      (true, "City added to favorites.") ∧
    (add_favorite ⟨[], []⟩ (some "Lahore") (63 / 2) (743 / 10)).1.favorites =
      [("Lahore", 63 / 2, 743 / 10)] ∧
    add_favorite ⟨[("Lahore", 63 / 2, 743 / 10)], []⟩ (some "Lahore")
        (63 / 2) (743 / 10) =
      (⟨[("Lahore", 63 / 2, 743 / 10)], []⟩,
        (false, "City already in favorites.")) := by
  refine ⟨?_, ?_, ?_⟩
  · exact ((add_favorite_contract ⟨[], []⟩ "Lahore" (63 / 2) (743 / 10)).2
      (by simp)).1
  · simpa using ((add_favorite_contract ⟨[], []⟩ "Lahore" (63 / 2)
      (743 / 10)).2 (by simp)).2.1
  · exact (add_favorite_contract ⟨[("Lahore", 63 / 2, 743 / 10)], []⟩ "Lahore"
      (63 / 2) (743 / 10)).1 (63 / 2) (743 / 10) (by simp)

/-- C5: `remove_favorite` succeeds with `"City removed."` exactly when a row
with that city was present, fails with `"City not found."` exactly when none
was, afterwards no row with that city remains, and a second removal of the
same city therefore reports failure. -/
theorem remove_favorite_contract (db : DBState) (c : String) :
    ((remove_favorite db c).2 = (true, "City removed.") ↔
      ∃ p q, (c, p, q) ∈ db.favorites) ∧
    ((remove_favorite db c).2 = (false, "City not found.") ↔
      ∀ p q, (c, p, q) ∉ db.favorites) ∧
    (∀ p q, (c, p, q) ∉ (remove_favorite db c).1.favorites) ∧
    (remove_favorite (remove_favorite db c).1 c).2.1 = false := by
  have h3 : ∀ p q : ℚ, (c, p, q) ∉ (remove_favorite db c).1.favorites := by
    intro p q hmem
    simp only [remove_favorite, List.mem_filter] at hmem
    simp at hmem
  have h4 : (remove_favorite (remove_favorite db c).1 c).2.1 = false := by
    simp only [remove_favorite]
    rw [Bool.eq_false_iff]
    intro h
    obtain ⟨p, q, hmem⟩ := (any_city_iff _ c).mp h
    simp [List.mem_filter] at hmem
  rcases hany : db.favorites.any (fun r => r.1 = c) with _ | _
  · have hnotP : ∀ p q : ℚ, (c, p, q) ∉ db.favorites := fun p q hmem =>
      absurd ((any_city_iff db.favorites c).mpr ⟨p, q, hmem⟩) (by simp [hany])
    have e2 : (remove_favorite db c).2 = (false, "City not found.") := by
      simp [remove_favorite, hany]
    refine ⟨?_, ?_, h3, h4⟩
    · rw [e2]
      constructor
      · intro hpair
        exact absurd hpair (by simp)
      · rintro ⟨p, q, hmem⟩
        exact absurd hmem (hnotP p q)
    · rw [e2]
      exact ⟨fun _ => hnotP, fun _ => rfl⟩
  · obtain ⟨p0, q0, hmem0⟩ := (any_city_iff _ c).mp hany
    have e2 : (remove_favorite db c).2 = (true, "City removed.") := by
      simp [remove_favorite, hany]
    refine ⟨?_, ?_, h3, h4⟩
    · rw [e2]
      exact ⟨fun _ => ⟨p0, q0, hmem0⟩, fun _ => rfl⟩
    · rw [e2]
      constructor
      · intro hpair
        exact absurd hpair (by simp)
      · intro habs
        exact absurd hmem0 (habs p0 q0)

/-- C5 on the spec's example: removing Lahore from the one-row store succeeds
and empties it; removing it again fails. -/
theorem remove_favorite_contract_witness :
    (remove_favorite ⟨[("Lahore", 63 / 2, 743 / 10)], []⟩ "Lahore").2 =
      (true, "City removed.") ∧
    (remove_favorite
        (remove_favorite ⟨[("Lahore", 63 / 2, 743 / 10)], []⟩ "Lahore").1
        "Lahore").2.1 = false := by
  constructor
  · exact (remove_favorite_contract ⟨[("Lahore", 63 / 2, 743 / 10)], []⟩
      "Lahore").1.mpr ⟨63 / 2, 743 / 10, by simp⟩
  · exact (remove_favorite_contract ⟨[("Lahore", 63 / 2, 743 / 10)], []⟩
      "Lahore").2.2.2

/-- C6: `save_weather_history` appends exactly one new row and touches nothing
else; `get_weather_history` returns exactly the matching rows' five-field
projections in insertion order — the saved row shows up at the end of its own
city's history and in no other city's, and a city with no matching rows gets
the empty sequence. -/
theorem history_contract (db : DBState) (w : HistRow) (c : String) :
    (save_weather_history db w).history = db.history ++ [w] ∧
    (save_weather_history db w).favorites = db.favorites ∧
    get_weather_history (save_weather_history db w) c =
      get_weather_history db c ++
        (if w.city = c then
          [(w.temp, w.humidity, w.wind_speed, w.description, w.timestamp)]
         else []) ∧
    ((∀ r ∈ db.history, r.city ≠ c) → get_weather_history db c = []) ∧
    (∀ x, x ∈ get_weather_history db c ↔ ∃ r ∈ db.history, r.city = c ∧
      x = (r.temp, r.humidity, r.wind_speed, r.description, r.timestamp)) := by
  refine ⟨rfl, rfl, ?_, ?_, ?_⟩
  · rcases hc : decide (w.city = c) with _ | _
    · simp only [get_weather_history, save_weather_history,
        List.filter_append, List.map_append]
      simp [List.filter, hc, of_decide_eq_false hc]
    · simp only [get_weather_history, save_weather_history,
        List.filter_append, List.map_append]
      simp [List.filter, hc, of_decide_eq_true hc]
  · intro habs
    have : db.history.filter (fun r => r.city = c) = [] := by
      rw [List.filter_eq_nil_iff]
      intro r hr
      simp [habs r hr]
    simp [get_weather_history, this]
  · intro x
    simp only [get_weather_history, List.mem_map, List.mem_filter,
      decide_eq_true_eq]
    constructor
    · rintro ⟨r, ⟨hr, hcity⟩, hproj⟩
      exact ⟨r, hr, hcity, hproj.symm⟩
    · rintro ⟨r, hr, hcity, hproj⟩
      exact ⟨r, ⟨hr, hcity⟩, hproj.symm⟩

/-- C6 on the spec's example: saving a Lahore observation with temp 30 and
humidity 50 into an empty store yields exactly one Lahore history row whose
first two fields are `(30, 50)`, and an empty history for any other city. -/
theorem history_contract_witness :
    get_weather_history
        (save_weather_history ⟨[], []⟩
          ⟨"Lahore", 30, 50, 2, "clear sky", "2025-06-13 12:00:00"⟩)
        "Lahore" =
      [(30, 50, 2, "clear sky", "2025-06-13 12:00:00")] ∧
    get_weather_history
        (save_weather_history ⟨[], []⟩
          ⟨"Lahore", 30, 50, 2, "clear sky", "2025-06-13 12:00:00"⟩)
        "Other" = [] := by
  constructor
  · have h := (history_contract ⟨[], []⟩
      ⟨"Lahore", 30, 50, 2, "clear sky", "2025-06-13 12:00:00"⟩ "Lahore").2.2.1
    simpa [get_weather_history] using h
  · have h := (history_contract ⟨[], []⟩
      ⟨"Lahore", 30, 50, 2, "clear sky", "2025-06-13 12:00:00"⟩ "Other").2.2.1
    simpa [get_weather_history] using h

/-! ## C10 -/

/-- C10: inserting a favorite with a NULL city violates the `NOT NULL`
constraint; the resulting `sqlite3.IntegrityError` is caught by the same
handler as a duplicate insert, so `add_favorite` reports
`(False, "City already in favorites.")` and the store is unchanged. -/
theorem add_favorite_null_city (db : DBState) (la lo : ℚ) :
    add_favorite db none la lo = (db, (false, "City already in favorites.")) ∧
    get_favorites (add_favorite db none la lo).1 = get_favorites db :=
  ⟨rfl, rfl⟩
